import Mathlib

/-!
Verification of the conversation state machine of the backstage-nobl9 bot.

This file is a shallow embedding of the Go sources:
  * `internal/recovery/recovery.go`  — error classification and retry policy
  * `internal/interactive` (prompt primitives) — `Prompt`, `Confirmation`
  * `internal/command/command.go`   — `ParseCommand` and command handlers
  * `internal/bot/bot.go`           — `ConversationState`, `HandleMessage`,
    `handlePromptResponse`, `handleCommand`, `handleDefaultMessage`,
    `GetConversationState`, `Reset`

Go strings become Lean `String`; Go `error` values become the `GoError`
type below; stateful code threads `ConversationState` explicitly; the
external Nobl9 collaborator is an environment of oracles (`Env`), indexed
by the attempt number so that retry loops are observable.
-/

set_option maxRecDepth 8000

deriving instance DecidableEq for Except

namespace Nobl9

/-- `strings.ToLower` (kernel-reducible implementation over the
character list; the bot only lowercases ASCII answers). -/
def goToLower (s : String) : String :=
  ⟨s.data.map Char.toLower⟩

/-- `strings.TrimSpace` (kernel-reducible implementation: drop whitespace
from both ends of the character list). -/
def goTrim (s : String) : String :=
  ⟨((s.data.dropWhile Char.isWhitespace).reverse.dropWhile Char.isWhitespace).reverse⟩

/-- `strings.EqualFold` restricted to the ASCII case folding actually
exercised by the bot (all option sets and answers are ASCII). -/
def equalFold (a b : String) : Bool :=
  goToLower a == goToLower b

/-- Helper for `goFields`: split a character list around runs of
whitespace, accumulating the current (reversed) field. -/
def fieldsAux : List Char → List Char → List String
  | [], acc => if acc = [] then [] else [⟨acc.reverse⟩]
  | c :: cs, acc =>
    if c.isWhitespace then
      if acc = [] then fieldsAux cs [] else (⟨acc.reverse⟩ : String) :: fieldsAux cs []
    else
      fieldsAux cs (c :: acc)

/-- `strings.Fields`: split around runs of whitespace. -/
def goFields (s : String) : List String :=
  fieldsAux s.data []

/-- `strings.HasPrefix(s, "/")`. -/
def startsWithSlash (s : String) : Bool :=
  match s.data with
  | c :: _ => c == '/'
  | [] => false

/-- `strings.TrimPrefix(s, "/")`. -/
def trimSlash (s : String) : String :=
  match s.data with
  | '/' :: rest => ⟨rest⟩
  | _ => s

/-- The error taxonomy of `internal/errors` (the package itself is thin
constructors over these kinds; its taxonomy is documented in
`docs/technical.md` and exercised by `internal/recovery`). -/
inductive ErrKind
  | rateLimit
  | timeout
  | notFound
  | conflict
  | validation
  | internal
  deriving DecidableEq, Repr

/-- A Go `error` as seen by the bot, after `internal/errors`:
`typed k msg` is a `*BotError` with `Type` `k`, `Message` `msg` and a nil
wrapped error (every `New*Error` call in the embedded paths passes a nil
cause); `wrapped k msg cause` is a `*BotError` wrapping another error,
`cause` being that error's `%v` rendering; `plain msg` is any
non-`BotError` error (`fmt.Errorf`, `errors.New`), which matches none of
the `errors.Is*` predicates. -/
inductive GoError
  | typed (k : ErrKind) (msg : String)
  | wrapped (k : ErrKind) (msg : String) (cause : String)
  | plain (msg : String)
  deriving DecidableEq, Repr

/-- The `errors.ErrorType` constant for each kind. -/
def ErrKind.typeString : ErrKind → String
  | .rateLimit => "rate_limit_error"
  | .timeout => "timeout_error"
  | .notFound => "not_found_error"
  | .conflict => "conflict_error"
  | .validation => "validation_error"
  | .internal => "internal_error"

/-- `BotError.Error()` — the string `%v`/`%w` prints for an error:
`<type>: <message>` for a `BotError` with no wrapped error,
`<type>: <message> (<wrapped>)` for a wrapping one, and the bare message
for a non-`BotError` error. -/
def GoError.Error : GoError → String
  | .typed k m => k.typeString ++ ": " ++ m
  | .wrapped k m cause => k.typeString ++ ": " ++ m ++ " (" ++ cause ++ ")"
  | .plain m => m

/-- `errors.IsRateLimitError` and friends: `errors.As` finds the
outermost `*BotError` of the chain and compares its `Type`; true exactly
on `BotError`s of the matching kind. -/
def GoError.isKind (e : GoError) (k : ErrKind) : Bool :=
  match e with
  | .typed k' _ => k' == k
  | .wrapped k' _ _ => k' == k
  | .plain _ => false

/-- `recovery.Strategy`. -/
inductive Strategy
  | retry
  | fallback
  | cancel
  deriving DecidableEq, Repr

/-- `recovery.Recovery`. `Delay` is in seconds (the Go code uses
`time.Duration`; only 5s, 2s and 0 occur). -/
structure Recovery where
  strategy : Strategy
  MaxAttempts : Nat
  Delay : Nat
  Message : String
  deriving DecidableEq, Repr

/-- `recovery.NewRecovery`. -/
def NewRecovery (strategy : Strategy) (maxAttempts : Nat) (delay : Nat) (message : String) : Recovery :=
  { strategy := strategy, MaxAttempts := maxAttempts, Delay := delay, Message := message }

/-- `recovery.GetRecoveryForError`: the fixed classification table. -/
def GetRecoveryForError (err : GoError) : Recovery :=
  if err.isKind .rateLimit then
    NewRecovery .retry 3 5 "Rate limit exceeded, retrying..."
  else if err.isKind .timeout then
    NewRecovery .retry 2 2 "Operation timed out, retrying..."
  else if err.isKind .notFound then
    NewRecovery .fallback 1 0 "Resource not found, using default values"
  else if err.isKind .conflict then
    NewRecovery .cancel 1 0 "Resource already exists"
  else if err.isKind .validation then
    NewRecovery .cancel 1 0 "Invalid input, please check your request"
  else
    NewRecovery .cancel 1 0 "An unexpected error occurred"

/-- `recovery.ShouldRetry`. -/
def ShouldRetry (err : GoError) (attempts : Nat) : Bool :=
  let recovery := GetRecoveryForError err
  recovery.strategy == .retry && attempts < recovery.MaxAttempts

/-- `recovery.GetRetryDelay`. -/
def GetRetryDelay (err : GoError) : Nat :=
  (GetRecoveryForError err).Delay

/-- `interactive.Prompt`. `Timeout` is in seconds. -/
structure Prompt where
  Message : String
  Options : List String
  Default : String
  Timeout : Nat
  MaxAttempts : Nat
  deriving DecidableEq, Repr

/-- `interactive.NewPrompt`. -/
def NewPrompt (message : String) (options : List String) (defaultOption : String) : Prompt :=
  { Message := message, Options := options, Default := defaultOption
    Timeout := 300, MaxAttempts := 3 }

/-- `format.FormatPrompt`. -/
def FormatPrompt (message : String) : String :=
  "🤖 " ++ message

/-- `Prompt.Format`: the prompt text plus a numbered option list. -/
def Prompt.Format (p : Prompt) : String :=
  FormatPrompt p.Message ++ "\n\n" ++
    (if p.Options ≠ [] then
      "Options:\n" ++ String.join ((List.range p.Options.length).map (fun i =>
        let option := p.Options.getD i ""
        if option = p.Default then
          toString (i + 1) ++ ". " ++ option ++ " (default)\n"
        else
          toString (i + 1) ++ ". " ++ option ++ "\n"))
    else "")

/-- `Prompt.Validate`: trim; empty answer resolves to the default when one
is set; with a non-empty option list the answer must case-insensitively
equal an option (the canonical option is returned); otherwise the trimmed
answer is returned verbatim. -/
def Prompt.Validate (p : Prompt) (response : String) : Except GoError String :=
  let response := goTrim response
  if response = "" ∧ p.Default ≠ "" then
    .ok p.Default
  else if p.Options ≠ [] then
    match p.Options.find? (fun option => equalFold response option) with
    | some option => .ok option
    | none => .error (.plain ("invalid option: " ++ response))
  else
    .ok response

/-- `interactive.Confirmation`. -/
structure Confirmation where
  Message : String
  Default : Bool
  Timeout : Nat
  MaxAttempts : Nat
  deriving DecidableEq, Repr

/-- `interactive.NewConfirmation`. -/
def NewConfirmation (message : String) (defaultYes : Bool) : Confirmation :=
  { Message := message, Default := defaultYes, Timeout := 300, MaxAttempts := 3 }

/-- `Confirmation.Format`. -/
def Confirmation.Format (c : Confirmation) : String :=
  FormatPrompt c.Message ++ "\n\n" ++ (if c.Default then "(Y/n) " else "(y/N) ")

/-- `Confirmation.Validate`: lowercase then trim; empty answer resolves to
the default; `y`/`yes` and `n`/`no` are accepted; anything else fails. -/
def Confirmation.Validate (c : Confirmation) (response : String) : Except GoError Bool :=
  let response := goTrim (goToLower response)
  if response = "" then
    .ok c.Default
  else if response = "y" ∨ response = "yes" then
    .ok true
  else if response = "n" ∨ response = "no" then
    .ok false
  else
    .error (.plain ("invalid response: " ++ response))

/-- The two runtime types the `interface{}`-typed field
`ConversationState.PendingPrompt` can hold (`*interactive.Prompt` or
`*interactive.Confirmation`), as a tagged union. -/
inductive PromptOrConfirmation
  | prompt (p : Prompt)
  | confirmation (c : Confirmation)
  deriving DecidableEq, Repr

/-- `bot.ConversationState`. Timestamps are abstract instants (`Nat`);
`UserRoles` is the user → roles map as an association list. -/
structure ConversationState where
  ProjectName : String
  ProjectDescription : String
  Owner : String
  CreatedAt : Nat
  UserRoles : List (String × List String)
  LastUpdated : Nat
  Step : String
  PendingPrompt : Option PromptOrConfirmation
  CurrentStep : String
  RoleUser : String
  RoleType : String
  deriving DecidableEq, Repr

/-- `ConversationState.Reset`: clears the step-scoped fields and the
pending prompt; leaves `CreatedAt`, `LastUpdated` and `UserRoles` alone. -/
def ConversationState.Reset (s : ConversationState) : ConversationState :=
  { s with ProjectName := "", ProjectDescription := "", Owner := "", Step := "",
           PendingPrompt := none, CurrentStep := "", RoleUser := "", RoleType := "" }

/-- `command.Project` (name, description, owner, creation instant). -/
structure Project where
  Name : String
  Description : String
  Owner : String
  CreatedAt : Nat
  deriving DecidableEq, Repr

/-- The external Nobl9 collaborator, as oracles indexed by the attempt
number (how many times the surrounding retry loop has already called the
operation), so that retried calls may observe different results. -/
structure Env where
  validateProjectName : String → Nat → Except GoError Bool
  createProject : String → String → Nat → Except GoError Unit
  validateUser : String → Nat → Except GoError Bool
  assignRoles : String → List String → Nat → Except GoError Unit
  listProjects : Except GoError (List Project)

/-- The inline retry loop used around every collaborator call in
`bot.go`: call; on error, retry while `recovery.ShouldRetry` allows it,
incrementing the attempt counter. The Go loop is unbounded but
`ShouldRetry _ n` is false for every `n ≥ 3`, so the loop makes at most 4
calls; `fuel` is a structural bound ≥ that, and the fuel-exhaustion branch
returns the same error as the `ShouldRetry`-false exit
(`retryLoop_fuel_sufficient` below shows fuel 4 is never consumed). -/
def retryLoop {α : Type} (call : Nat → Except GoError α) : Nat → Nat → Except GoError α
  | fuel, attempts =>
    match call attempts with
    | .ok a => .ok a
    | .error e =>
      match fuel with
      | 0 => .error e
      | fuel' + 1 =>
        if ShouldRetry e attempts then retryLoop call fuel' (attempts + 1) else .error e

/-- `command.Command` metadata registered by `bot.NewBot` (name, aliases,
description, usage). -/
structure CommandInfo where
  Name : String
  Aliases : List String
  Description : String
  Usage : String
  deriving DecidableEq, Repr

/-- The default command registry built by `bot.NewBot`. -/
def defaultCommands : List CommandInfo :=
  [⟨"help", ["h", "?"], "Show available commands or help for a specific command", "help [command]"⟩,
   ⟨"create-project", ["create", "new"], "Create a new Nobl9 project", "create-project <name>"⟩,
   ⟨"assign-role", ["assign", "role"], "Assign a role to a user in a project", "assign-role <project> <user>"⟩,
   ⟨"list-projects", ["list", "ls"], "List available projects", "list-projects"⟩]

/-- `CommandRegistry.Get`: by name, then by alias. -/
def registryGet (name : String) : Option CommandInfo :=
  match defaultCommands.find? (fun cmd => cmd.Name == name) with
  | some cmd => some cmd
  | none => defaultCommands.find? (fun cmd => cmd.Aliases.contains name)

/-- `command.FormatHelp`. The Go code routes this text through a
`tabwriter`; the column padding it would insert is not reproduced (the
raw tab is kept), which no claim depends on. -/
def FormatHelp (commands : List CommandInfo) : String :=
  "Available commands:\n------------------\n" ++
    String.join (commands.map (fun cmd =>
      "/" ++ cmd.Name ++ "\t" ++ cmd.Description ++ "\n" ++
        (if cmd.Usage ≠ "" then "  Usage: " ++ cmd.Usage ++ "\n" else "")))

/-- `command.FormatCommandHelp` (same `tabwriter` caveat as `FormatHelp`). -/
def FormatCommandHelp (cmd : CommandInfo) : String :=
  "Command: /" ++ cmd.Name ++ "\n" ++
    (if cmd.Aliases ≠ [] then "Aliases: " ++ String.intercalate ", " cmd.Aliases ++ "\n" else "") ++
    "Description: " ++ cmd.Description ++ "\n" ++
    (if cmd.Usage ≠ "" then "Usage: " ++ cmd.Usage ++ "\n" else "")

/-- `command.HelpCommand`. -/
def HelpCommand (args : List String) : Except GoError String :=
  match args with
  | [] => .ok (FormatHelp defaultCommands)
  | a :: _ =>
    match registryGet a with
    | none => .error (.typed .validation ("unknown command: " ++ a))
    | some cmd => .ok (FormatCommandHelp cmd)

/-- `command.DefaultCommand`'s reply for unrecognized commands. -/
def unknownCommandReply : String :=
  "❌ Error: unknown command. Type 'help' for available commands."

/-- `command.ListProjectsCommand`. -/
def ListProjectsCommand (env : Env) : Except GoError String :=
  match env.listProjects with
  | .error e => .error (.plain ("failed to list projects: " ++ e.Error))
  | .ok projects =>
    if projects.length = 0 then
      .ok "📁 No projects found in your organization."
    else
      .ok ("📋 Found " ++ toString projects.length ++ " project(s):\n\n" ++
        String.join ((List.range projects.length).map (fun i =>
          let project := projects.getD i ⟨"", "", "", 0⟩
          "🏗️  **" ++ project.Name ++ "**" ++
            (if project.Description ≠ "" then " - " ++ project.Description else "") ++ "\n" ++
            (if i < projects.length - 1 then "\n" else ""))))

/-- `command.ParseCommand`: trim; input that is empty or has no leading
`/` is not a command (`.ok none`); otherwise the first whitespace field,
slash stripped, is the command name, the rest are positional arguments.
The registry is not consulted. -/
def ParseCommand (input : String) : Except GoError (Option (String × List String)) :=
  let input := goTrim input
  if input = "" ∨ startsWithSlash input = false then
    .ok none
  else
    match goFields input with
    | [] => .error (.typed .validation "invalid command format")
    | f :: args => .ok (some (trimSlash f, args))

/-- `Bot.handlePromptResponse` (the conversation's pending-prompt answer
handler), switching on `CurrentStep` exactly as the Go `switch` does; the
returned pair is (result, mutated state). -/
def handlePromptResponse (env : Env) (s : ConversationState) (response : String) :
    Except GoError String × ConversationState :=
  if s.CurrentStep = "project_name" then
    match retryLoop (fun att => env.validateProjectName response att) 4 0 with
    | .error e => (.error e, s)
    | .ok available =>
      if available = false then
        let prompt := NewPrompt "Project name is not available. Please choose another name:" [] ""
        (.ok prompt.Format, { s with PendingPrompt := some (.prompt prompt) })
      else
        let prompt := NewPrompt "Please provide a description for the project:" [] ""
        (.ok prompt.Format,
          { s with ProjectName := response, CurrentStep := "project_description",
                   PendingPrompt := some (.prompt prompt) })
  else if s.CurrentStep = "project_description" then
    let confirm := NewConfirmation
      ("Create project '" ++ s.ProjectName ++ "' with description '" ++ response ++ "'?") true
    (.ok confirm.Format,
      { s with ProjectDescription := response, CurrentStep := "confirm_creation",
               PendingPrompt := some (.confirmation confirm) })
  else if s.CurrentStep = "confirm_creation" then
    match s.PendingPrompt with
    | some (.confirmation confirm) =>
      match confirm.Validate response with
      | .error e => (.error e, s)
      | .ok confirmed =>
        if confirmed = false then
          (.ok "Project creation cancelled.", s.Reset)
        else
          match retryLoop (fun att => env.createProject s.ProjectName s.ProjectDescription att) 4 0 with
          | .error e => (.error e, s)
          | .ok _ => (.ok "Project created successfully!", s.Reset)
    | _ => (.error (.plain "invalid prompt type: expected Confirmation"), s)
  else if s.CurrentStep = "role_user" then
    match retryLoop (fun att => env.validateUser response att) 4 0 with
    | .error e => (.error e, s)
    | .ok userFound =>
      if userFound = false then
        let prompt := NewPrompt "User not found. Please enter a valid email:" [] ""
        (.ok prompt.Format, { s with PendingPrompt := some (.prompt prompt) })
      else
        let prompt := NewPrompt "Please select a role type:" ["admin", "member", "viewer"] "member"
        (.ok prompt.Format,
          { s with RoleUser := response, CurrentStep := "role_type",
                   PendingPrompt := some (.prompt prompt) })
  else if s.CurrentStep = "role_type" then
    let confirm := NewConfirmation
      ("Assign role '" ++ response ++ "' to user '" ++ s.RoleUser ++ "' in project '" ++ s.ProjectName ++ "'?") true
    (.ok confirm.Format,
      { s with RoleType := response, CurrentStep := "confirm_role",
               PendingPrompt := some (.confirmation confirm) })
  else if s.CurrentStep = "confirm_role" then
    match s.PendingPrompt with
    | some (.confirmation confirm) =>
      match confirm.Validate response with
      | .error e => (.error e, s)
      | .ok confirmed =>
        if confirmed = false then
          (.ok "Role assignment cancelled.", s.Reset)
        else
          match retryLoop (fun att => env.assignRoles s.ProjectName [s.RoleUser] att) 4 0 with
          | .error e => (.error e, s)
          | .ok _ => (.ok "Role assigned successfully!", s.Reset)
    | _ => (.error (.plain "invalid prompt type: expected Confirmation"), s)
  else
    (.error (.plain ("unknown step: " ++ s.CurrentStep)), s)

/-- `Bot.handleCommand`, switching on the parsed command's name. The
`create-project` case never inspects `args`. -/
def handleCommand (env : Env) (s : ConversationState) (cmdName : String) (args : List String) :
    Except GoError String × ConversationState :=
  if cmdName = "help" then
    (HelpCommand args, s)
  else if cmdName = "create-project" then
    let prompt := NewPrompt "Please enter a project name:" [] ""
    (.ok prompt.Format,
      { s.Reset with CurrentStep := "project_name", PendingPrompt := some (.prompt prompt) })
  else if cmdName = "assign-role" then
    if args.length < 1 then
      (.ok "Please specify a project name.", s)
    else
      let prompt := NewPrompt "Please enter the user's email:" [] ""
      (.ok prompt.Format,
        { s.Reset with ProjectName := args.getD 0 "", CurrentStep := "role_user",
                       PendingPrompt := some (.prompt prompt) })
  else if cmdName = "list-projects" then
    (ListProjectsCommand env, s)
  else
    (.ok unknownCommandReply, s)

/-- `Bot.handleDefaultMessage` (reached only when no prompt is pending),
switching on `CurrentStep`. Note its `role_user`/`role_type` cases use the
role set `admin`/`editor`/`viewer` with default `viewer`, unlike
`handlePromptResponse`; its `role_type` case validates the answer and on
a match stores the canonical role without advancing `CurrentStep`. -/
def handleDefaultMessage (env : Env) (s : ConversationState) (message : String) :
    Except GoError String × ConversationState :=
  if s.CurrentStep = "role_user" then
    match retryLoop (fun att => env.validateUser message att) 4 0 with
    | .error e => (.error e, s)
    | .ok userFound =>
      if userFound = false then
        let prompt := NewPrompt "User not found. Please enter a valid email:" [] ""
        (.ok prompt.Format, { s with PendingPrompt := some (.prompt prompt) })
      else
        let prompt := NewPrompt "Please select a role type:" ["admin", "editor", "viewer"] "viewer"
        (.ok prompt.Format,
          { s with RoleUser := message, CurrentStep := "role_type",
                   PendingPrompt := some (.prompt prompt) })
  else if s.CurrentStep = "role_type" then
    match ["admin", "editor", "viewer"].find? (fun role => equalFold message role) with
    | none =>
      let prompt := NewPrompt "Invalid role type. Please select from: admin, editor, viewer"
        ["admin", "editor", "viewer"] "viewer"
      (.ok prompt.Format, { s with PendingPrompt := some (.prompt prompt) })
    | some role =>
      let confirm := NewConfirmation
        ("Assign role '" ++ role ++ "' to user '" ++ s.RoleUser ++ "' in project '" ++ s.ProjectName ++ "'?") true
      (.ok confirm.Format, { s with RoleType := role, PendingPrompt := some (.confirmation confirm) })
  else if s.CurrentStep = "confirm_role" then
    match s.PendingPrompt with
    | some (.confirmation confirm) =>
      match confirm.Validate message with
      | .error e => (.error e, s)
      | .ok confirmed =>
        if confirmed = false then
          (.ok "Role assignment cancelled.", s.Reset)
        else
          match retryLoop (fun att => env.assignRoles s.ProjectName [s.RoleUser] att) 4 0 with
          | .error e => (.error e, s)
          | .ok _ => (.ok "Role assigned successfully!", s.Reset)
    | _ => (.error (.plain "invalid prompt type: expected Confirmation"), s)
  else
    (.error (.plain ("unknown step: " ++ s.CurrentStep)), s)

/-- The bot's conversation map (`Bot.state`), keyed by conversation id. -/
abbrev StateMap := List (String × ConversationState)

/-- Go map read. -/
def lookupState (m : StateMap) (id : String) : Option ConversationState :=
  match m.find? (fun kv => kv.1 == id) with
  | some kv => some kv.2
  | none => none

/-- Go map write (replace or append). -/
def insertState (m : StateMap) (id : String) (s : ConversationState) : StateMap :=
  if m.any (fun kv => kv.1 == id) then
    m.map (fun kv => if kv.1 == id then (id, s) else kv)
  else
    m ++ [(id, s)]

/-- The fresh state `Bot.GetConversationState` builds for an unknown id:
timestamps set to now, an initialized empty user-roles map, empty current
step and no pending prompt (all other fields zero-valued). -/
def newConversationState (now : Nat) : ConversationState :=
  { ProjectName := "", ProjectDescription := "", Owner := "", CreatedAt := now,
    UserRoles := [], LastUpdated := now, Step := "", PendingPrompt := none,
    CurrentStep := "", RoleUser := "", RoleType := "" }

/-- `Bot.GetConversationState`: look the id up; when absent, create and
store a fresh state. Returns (state, exists flag, updated map); the
exists flag the Go code returns is the literal `true` in both branches. -/
def GetConversationState (m : StateMap) (id : String) (now : Nat) :
    ConversationState × Bool × StateMap :=
  match lookupState m id with
  | some s => (s, true, m)
  | none => (newConversationState now, true, insertState m id (newConversationState now))

/-- The body of `Bot.HandleMessage` after the conversation-state lookup:
a pending prompt routes the message to `handlePromptResponse` (whose
error is rendered as an `Invalid response: …` reply with no error);
otherwise the message is parsed and dispatched to `handleCommand` or
`handleDefaultMessage`. -/
def dispatchMessage (env : Env) (s : ConversationState) (message : String) :
    Except GoError String × ConversationState :=
  if s.PendingPrompt.isSome then
    match handlePromptResponse env s message with
    | (.error e, s') => (.ok ("Invalid response: " ++ e.Error ++ ". Please try again."), s')
    | (.ok r, s') => (.ok r, s')
  else
    match ParseCommand message with
    | .error e => (.error e, s)
    | .ok none => handleDefaultMessage env s message
    | .ok (some cmd) => handleCommand env s cmd.1 cmd.2

/-- `Bot.HandleMessage`: get-or-create the conversation state (with the
not-found guard of the Go code), dispatch, and write the mutated state
back into the map. -/
def HandleMessage (env : Env) (m : StateMap) (conversationID message : String) (now : Nat) :
    Except GoError String × StateMap :=
  let res := GetConversationState m conversationID now
  let s := res.1
  let found := res.2.1
  let m₁ := res.2.2
  if found = false then
    (.error (.typed .notFound "conversation not found"), m₁)
  else
    let out := dispatchMessage env s message
    (out.1, insertState m₁ conversationID out.2)

/-- `HandleMessage` with the dead not-found branch removed (used to state
that the branch is unreachable). -/
def HandleMessageNoCheck (env : Env) (m : StateMap) (conversationID message : String) (now : Nat) :
    Except GoError String × StateMap :=
  let res := GetConversationState m conversationID now
  let s := res.1
  let m₁ := res.2.2
  let out := dispatchMessage env s message
  (out.1, insertState m₁ conversationID out.2)

/-! Concrete fixtures: an all-success collaborator, failing collaborators,
and mid-flow conversation states, used by the concrete evaluations below. -/

/-- A collaborator for which every call succeeds. -/
def envOk : Env :=
  { validateProjectName := fun _ _ => .ok true
    createProject := fun _ _ _ => .ok ()
    validateUser := fun _ _ => .ok true
    assignRoles := fun _ _ _ => .ok ()
    listProjects := .ok [] }

/-- A collaborator whose `CreateProject` always fails with a validation
error (classified `cancel`, so `ShouldRetry` is false at attempt 0). -/
def envCreateFails : Env :=
  { envOk with createProject := fun _ _ _ => .error (.typed .validation "invalid input") }

/-- A collaborator whose `AssignRoles` always times out (classified
`retry` with 2 max attempts, so retries exhaust). -/
def envAssignFails : Env :=
  { envOk with assignRoles := fun _ _ _ => .error (.typed .timeout "operation timed out") }

/-- A conversation waiting on the project-creation confirmation. -/
def stateConfirmCreation : ConversationState :=
  { newConversationState 0 with
      ProjectName := "svc", ProjectDescription := "d", CurrentStep := "confirm_creation",
      PendingPrompt := some (.confirmation
        (NewConfirmation "Create project 'svc' with description 'd'?" true)) }

/-- The role-type prompt `handlePromptResponse` emits after validating the
role-target user. -/
def roleTypePrompt : Prompt :=
  NewPrompt "Please select a role type:" ["admin", "member", "viewer"] "member"

/-- A conversation waiting on the role-target user's email. -/
def stateRoleUser : ConversationState :=
  { newConversationState 0 with
      ProjectName := "svc", CurrentStep := "role_user",
      PendingPrompt := some (.prompt (NewPrompt "Please enter the user's email:" [] "")) }

/-- A conversation waiting on the role-type answer (as the role flow
leaves it after the user step). -/
def stateRoleType : ConversationState :=
  { newConversationState 0 with
      ProjectName := "svc", RoleUser := "user@example.com", CurrentStep := "role_type",
      PendingPrompt := some (.prompt roleTypePrompt) }

/-- A conversation waiting on the role-assignment confirmation. -/
def stateConfirmRole : ConversationState :=
  { newConversationState 0 with
      ProjectName := "svc", RoleUser := "user@example.com", RoleType := "member",
      CurrentStep := "confirm_role",
      PendingPrompt := some (.confirmation
        (NewConfirmation "Assign role 'member' to user 'user@example.com' in project 'svc'?" true)) }

end Nobl9

namespace Nobl9

/-! Supporting lemmas about the retry loop. -/

/-- No error kind allows a retry once 3 attempts have been made. -/
theorem shouldRetry_false_of_three_le (e : GoError) (a : Nat) (h : 3 ≤ a) :
    ShouldRetry e a = false := by
  cases e with
  | plain m =>
    simp [ShouldRetry, GetRecoveryForError, GoError.isKind, NewRecovery]
  | typed k m =>
    cases k <;>
      simp [ShouldRetry, GetRecoveryForError, GoError.isKind, NewRecovery] <;>
      omega
  | wrapped k m cause =>
    cases k <;>
      simp [ShouldRetry, GetRecoveryForError, GoError.isKind, NewRecovery] <;>
      omega

/-- A retry is only allowed below 3 attempts. -/
theorem lt_three_of_shouldRetry (e : GoError) (a : Nat) (h : ShouldRetry e a = true) :
    a < 3 := by
  by_contra hc
  rw [shouldRetry_false_of_three_le e a (by omega)] at h
  exact Bool.false_ne_true h

/-- One-step unfolding of `retryLoop`. -/
theorem retryLoop_eq {α : Type} (call : Nat → Except GoError α) (fuel attempts : Nat) :
    retryLoop call fuel attempts =
      match call attempts with
      | .ok a => .ok a
      | .error e =>
        match fuel with
        | 0 => .error e
        | fuel' + 1 =>
          if ShouldRetry e attempts then retryLoop call fuel' (attempts + 1) else .error e := by
  conv_lhs => rw [retryLoop]

/-- When the collaborator fails at every attempt, the retry loop returns
that error, whatever the fuel and starting attempt count. -/
theorem retryLoop_const_error {α : Type} (call : Nat → Except GoError α) (e : GoError)
    (h : ∀ n, call n = .error e) :
    ∀ fuel attempts, retryLoop call fuel attempts = .error e := by
  intro fuel
  induction fuel with
  | zero => intro a; rw [retryLoop_eq, h a]
  | succ f ih =>
    intro a
    rw [retryLoop_eq, h a]
    show (if ShouldRetry e a then retryLoop call f (a + 1) else .error e) = .error e
    split
    · exact ih (a + 1)
    · rfl

/-- Fuel adequacy: once the fuel covers the at most `3 - attempts` further
retries `ShouldRetry` can allow, the loop's result does not depend on it —
so instantiating the unbounded Go loop with fuel 4 loses nothing. -/
theorem retryLoop_fuel_irrelevant {α : Type} (call : Nat → Except GoError α) :
    ∀ f₁ f₂ a, 3 ≤ a + f₁ → 3 ≤ a + f₂ → retryLoop call f₁ a = retryLoop call f₂ a := by
  intro f₁
  induction f₁ with
  | zero =>
    intro f₂ a h₁ h₂
    have ha : 3 ≤ a := by omega
    cases f₂ with
    | zero => rfl
    | succ g =>
      rw [retryLoop_eq, retryLoop_eq]
      cases hc : call a with
      | ok v => rfl
      | error e => simp [shouldRetry_false_of_three_le e a ha]
  | succ f ih =>
    intro f₂ a h₁ h₂
    cases f₂ with
    | zero =>
      have ha : 3 ≤ a := by omega
      rw [retryLoop_eq, retryLoop_eq]
      cases hc : call a with
      | ok v => rfl
      | error e => simp [shouldRetry_false_of_three_le e a ha]
    | succ g =>
      rw [retryLoop_eq, retryLoop_eq]
      cases hc : call a with
      | ok v => rfl
      | error e =>
        cases hr : ShouldRetry e a with
        | false => simp [hr]
        | true =>
          have := lt_three_of_shouldRetry e a hr
          simp only [hr, if_true]
          exact ih g (a + 1) (by omega) (by omega)

/-! ## Claim theorems -/

/-- C5: `ShouldRetry(err, n)` is true exactly when the recovery strategy
for `err` is retry and `n` is below its max attempts; for a rate-limit
error it is true for n < 3 and false at 3, for a timeout error true for
n < 2 and false at 2, and for a validation error false for every n. -/
theorem shouldRetry_retry_bound :
    (∀ (m : String) (n : Nat),
        ShouldRetry (.typed .rateLimit m) n = decide (n < 3)
      ∧ ShouldRetry (.typed .timeout m) n = decide (n < 2)
      ∧ ShouldRetry (.typed .validation m) n = false)
  ∧ (∀ (e : GoError) (n : Nat),
      ShouldRetry e n = true ↔
        (GetRecoveryForError e).strategy = .retry ∧ n < (GetRecoveryForError e).MaxAttempts) := by
  constructor
  · intro m n
    refine ⟨?_, ?_, ?_⟩ <;>
      simp [ShouldRetry, GetRecoveryForError, GoError.isKind, NewRecovery]
  · intro e n
    simp [ShouldRetry, Bool.and_eq_true, beq_iff_eq, decide_eq_true_eq]

/-- C8: `Reset()` yields a state whose current step is idle (the empty
step tag), whose pending prompt is `nil`, and whose step-scoped fields
(project name, description, owner, step, role user, role type) are
zero-valued; `CreatedAt`, `LastUpdated` and the user-roles map are left
unchanged; and `Reset` is idempotent. -/
theorem reset_idempotent_frame (s : ConversationState) :
    (s.Reset).CurrentStep = "" ∧ (s.Reset).PendingPrompt = none
  ∧ (s.Reset).ProjectName = "" ∧ (s.Reset).ProjectDescription = ""
  ∧ (s.Reset).Owner = "" ∧ (s.Reset).Step = ""
  ∧ (s.Reset).RoleUser = "" ∧ (s.Reset).RoleType = ""
  ∧ (s.Reset).CreatedAt = s.CreatedAt
  ∧ (s.Reset).LastUpdated = s.LastUpdated
  ∧ (s.Reset).UserRoles = s.UserRoles
  ∧ s.Reset.Reset = s.Reset := by
  simp [ConversationState.Reset]

/-- C6: for a `Prompt` built over the two options `{A, B}`, `Validate x`
succeeds exactly when the trimmed `x` case-insensitively equals `A` or
`B`, or `x` trims to empty and the prompt has a non-empty default; on
success the canonical option (or the default) is returned, otherwise a
validation error carrying the trimmed answer. -/
theorem prompt_option_enforcement (m A B d x : String) :
    ((NewPrompt m [A, B] d).Validate x =
      if goTrim x = "" ∧ d ≠ "" then .ok d
      else if equalFold (goTrim x) A then .ok A
      else if equalFold (goTrim x) B then .ok B
      else .error (.plain ("invalid option: " ++ goTrim x)))
  ∧ ((∃ v, (NewPrompt m [A, B] d).Validate x = .ok v) ↔
      ((goTrim x = "" ∧ d ≠ "")
        ∨ equalFold (goTrim x) A = true
        ∨ equalFold (goTrim x) B = true)) := by
  have hmain :
      (NewPrompt m [A, B] d).Validate x =
        if goTrim x = "" ∧ d ≠ "" then .ok d
        else if equalFold (goTrim x) A then .ok A
        else if equalFold (goTrim x) B then .ok B
        else .error (.plain ("invalid option: " ++ goTrim x)) := by
    simp only [Prompt.Validate, NewPrompt, List.find?]
    split
    · rfl
    · simp only [ne_eq, List.cons_ne_self, not_false_iff, if_true, reduceCtorEq]
      cases hA : equalFold (goTrim x) A <;> cases hB : equalFold (goTrim x) B <;> simp
  refine ⟨hmain, ?_⟩
  rw [hmain]
  split
  · simp_all
  · split
    · simp_all
    · split <;> simp_all

/-- C7: a `Prompt` with a non-empty default validates the empty answer to
its default with no error; a `Confirmation` trims and lowercases the
answer, validates the empty answer to its configured default boolean,
`y`/`yes` to true, `n`/`no` to false, and anything else to a validation
error. -/
theorem prompt_confirmation_default_law :
    (∀ (m : String) (opts : List String) (d : String), d ≠ "" →
        (NewPrompt m opts d).Validate "" = .ok d)
  ∧ (∀ (msg : String) (b : Bool), (NewConfirmation msg b).Validate "" = .ok b)
  ∧ (∀ (msg : String) (b : Bool) (x : String),
      (NewConfirmation msg b).Validate x =
        (let r := goTrim (goToLower x)
         if r = "" then .ok b
         else if r = "y" ∨ r = "yes" then .ok true
         else if r = "n" ∨ r = "no" then .ok false
         else .error (.plain ("invalid response: " ++ r)))) := by
  refine ⟨?_, ?_, ?_⟩
  · intro m opts d hd
    simp [Prompt.Validate, NewPrompt, goTrim, hd]
  · intro msg b
    simp [Confirmation.Validate, NewConfirmation, goTrim, goToLower]
  · intro msg b x
    rfl

/-- C7 witness: the laws applied at a concrete prompt with default
`member` and a concrete default-yes confirmation. -/
theorem prompt_confirmation_default_law_witness :
    (NewPrompt "Please select a role type:" ["admin", "member", "viewer"] "member").Validate ""
      = .ok "member"
  ∧ (NewConfirmation "Create?" true).Validate "" = .ok true :=
  ⟨prompt_confirmation_default_law.1 "Please select a role type:"
      ["admin", "member", "viewer"] "member" (by decide),
   prompt_confirmation_default_law.2.1 "Create?" true⟩

/-- C10: `GetConversationState` always reports the state as existing —
for an unknown id it creates a fresh state (empty current step, no
pending prompt, initialized empty user-roles map) and stores it — so
`HandleMessage` coincides with its own not-found-branch-free variant:
the `conversation not found` branch is unreachable. -/
theorem handleMessage_never_conversation_not_found :
    (∀ (m : StateMap) (id : String) (now : Nat),
        (GetConversationState m id now).2.1 = true)
  ∧ (∀ (env : Env) (m : StateMap) (id msg : String) (now : Nat),
        HandleMessage env m id msg now = HandleMessageNoCheck env m id msg now)
  ∧ (∀ now : Nat,
        (newConversationState now).CurrentStep = ""
      ∧ (newConversationState now).PendingPrompt = none
      ∧ (newConversationState now).UserRoles = []) := by
  have hfound : ∀ (m : StateMap) (id : String) (now : Nat),
      (GetConversationState m id now).2.1 = true := by
    intro m id now
    unfold GetConversationState
    cases lookupState m id <;> rfl
  refine ⟨hfound, ?_, ?_⟩
  · intro env m id msg now
    simp [HandleMessage, HandleMessageNoCheck, hfound]
  · intro now
    exact ⟨rfl, rfl, rfl⟩

/-- C9: a confirmation step (`confirm_creation` in the creation flow,
`confirm_role` in the role flow, through either handler) whose answer
validates to false resets the conversation to idle and returns the
cancellation message; the result is the same for every collaborator
environment — no external call is consulted. -/
theorem confirmation_no_resets_and_cancels
    (env : Env) (s : ConversationState) (c : Confirmation) (ans : String)
    (hp : s.PendingPrompt = some (.confirmation c))
    (hv : c.Validate ans = .ok false) :
    (s.CurrentStep = "confirm_creation" →
        handlePromptResponse env s ans = (.ok "Project creation cancelled.", s.Reset))
  ∧ (s.CurrentStep = "confirm_role" →
        handlePromptResponse env s ans = (.ok "Role assignment cancelled.", s.Reset))
  ∧ (s.CurrentStep = "confirm_role" →
        handleDefaultMessage env s ans = (.ok "Role assignment cancelled.", s.Reset)) := by
  refine ⟨?_, ?_, ?_⟩ <;> intro hstep <;>
    simp [handlePromptResponse, handleDefaultMessage, hstep, hp, hv]

/-- C1 counterexample: a confirmed `yes` at `confirm_creation` whose
`CreateProject` keeps failing with `NewValidationError("invalid input", nil)`
(so `recovery.ShouldRetry` is false at once) makes `HandleMessage` return
a nil error with the reply `Invalid response: validation_error: invalid
input. Please try again.` (the `BotError` rendering of the collaborator
error) — not that error itself, as the claim says. -/
theorem handleMessage_swallows_collaborator_error :
    (HandleMessage envCreateFails [("cli", stateConfirmCreation)] "cli" "yes" 0).1
      = .ok "Invalid response: validation_error: invalid input. Please try again." := by
  decide

/-- C1 amended: when the external call keeps failing until
`recovery.ShouldRetry` is false, the orchestrator step
(`handlePromptResponse`) returns the collaborator error with the state
left at the confirmation step; `HandleMessage`, however, catches that
error and returns a nil error with the user-visible reply
`Invalid response: <Error() rendering>. Please try again.`. -/
theorem retry_exhaustion_error_propagation
    (env : Env) (s : ConversationState) (c : Confirmation) (ans : String) (e : GoError)
    (hp : s.PendingPrompt = some (.confirmation c))
    (hv : c.Validate ans = .ok true) :
    (s.CurrentStep = "confirm_creation" →
      (∀ n, env.createProject s.ProjectName s.ProjectDescription n = .error e) →
        handlePromptResponse env s ans = (.error e, s))
  ∧ (s.CurrentStep = "confirm_role" →
      (∀ n, env.assignRoles s.ProjectName [s.RoleUser] n = .error e) →
        handlePromptResponse env s ans = (.error e, s))
  ∧ (∀ (m : StateMap) (id : String) (now : Nat) (e' : GoError) (s' : ConversationState),
      lookupState m id = some s →
      handlePromptResponse env s ans = (.error e', s') →
        (HandleMessage env m id ans now).1
          = .ok ("Invalid response: " ++ e'.Error ++ ". Please try again.")) := by
  refine ⟨?_, ?_, ?_⟩
  · intro hstep hfail
    simp [handlePromptResponse, hstep, hp, hv,
      retryLoop_const_error _ e hfail 4 0]
  · intro hstep hfail
    simp [handlePromptResponse, hstep, hp, hv,
      retryLoop_const_error _ e hfail 4 0]
  · intro m id now e' s' hm hr
    simp [HandleMessage, GetConversationState, hm, dispatchMessage, hp, hr]

/-- C1 witness: the amended claim applied at the concrete fixture: the
step returns the validation error, `HandleMessage` the wrapped reply. -/
theorem retry_exhaustion_error_propagation_witness :
    handlePromptResponse envCreateFails stateConfirmCreation "yes"
      = (.error (.typed .validation "invalid input"), stateConfirmCreation)
  ∧ (HandleMessage envCreateFails [("cli", stateConfirmCreation)] "cli" "yes" 0).1
      = .ok "Invalid response: validation_error: invalid input. Please try again." := by
  have h := retry_exhaustion_error_propagation envCreateFails stateConfirmCreation
    (NewConfirmation "Create project 'svc' with description 'd'?" true) "yes"
    (.typed .validation "invalid input") rfl (by decide)
  have hstep := h.1 rfl (fun n => rfl)
  exact ⟨hstep, h.2.2 [("cli", stateConfirmCreation)] "cli" 0 _ _ (by decide) hstep⟩

/-- C2: the `create-project` case of `handleCommand` never inspects its
arguments — with zero or one argument alike it resets the state and moves
to `project_name` (a name prompt), never to `project_description`; in
particular `/create-project my-svc` leaves the project name empty, not
pre-filled. -/
theorem createProjectCommand_ignores_argument :
    (∀ (env : Env) (s : ConversationState) (args : List String),
        handleCommand env s "create-project" args
          = (.ok (NewPrompt "Please enter a project name:" [] "").Format,
             { s.Reset with
                 CurrentStep := "project_name",
                 PendingPrompt := some (.prompt (NewPrompt "Please enter a project name:" [] "")) }))
  ∧ ((lookupState (HandleMessage envOk [] "cli" "/create-project my-svc" 0).2 "cli").map
        (fun st => (st.CurrentStep, st.ProjectName))
      = some ("project_name", "")) := by
  constructor
  · intro env s args
    simp [handleCommand]
  · decide

/-- C3: `handlePromptResponse` does emit the role-type prompt with the
option set `admin`/`member`/`viewer` and default `member` after the user
is validated; but at the `role_type` step it stores any answer verbatim —
`banana` included — and advances to `confirm_role` instead of
re-prompting; the validating path lives only in `handleDefaultMessage`
(unreachable while a prompt is pending) and checks against
`admin`/`editor`/`viewer` instead. -/
theorem roleType_answer_stored_unvalidated :
    (handlePromptResponse envOk stateRoleUser "user@example.com"
      = (.ok roleTypePrompt.Format,
         { stateRoleUser with
             RoleUser := "user@example.com", CurrentStep := "role_type",
             PendingPrompt := some (.prompt roleTypePrompt) }))
  ∧ (∀ (env : Env) (answer : String),
      handlePromptResponse env stateRoleType answer
        = (.ok (NewConfirmation
            ("Assign role '" ++ answer ++ "' to user '" ++ stateRoleType.RoleUser
              ++ "' in project '" ++ stateRoleType.ProjectName ++ "'?") true).Format,
           { stateRoleType with
               RoleType := answer, CurrentStep := "confirm_role",
               PendingPrompt := some (.confirmation (NewConfirmation
                 ("Assign role '" ++ answer ++ "' to user '" ++ stateRoleType.RoleUser
                   ++ "' in project '" ++ stateRoleType.ProjectName ++ "'?") true)) }))
  ∧ ((handlePromptResponse envOk stateRoleType "banana").2.RoleType = "banana"
      ∧ (handlePromptResponse envOk stateRoleType "banana").2.CurrentStep = "confirm_role")
  ∧ (handleDefaultMessage envOk { stateRoleType with PendingPrompt := none } "banana"
      = (.ok (NewPrompt "Invalid role type. Please select from: admin, editor, viewer"
            ["admin", "editor", "viewer"] "viewer").Format,
         { stateRoleType with PendingPrompt := some (.prompt
             (NewPrompt "Invalid role type. Please select from: admin, editor, viewer"
               ["admin", "editor", "viewer"] "viewer")) })) := by
  refine ⟨by decide, ?_, by decide, by decide⟩
  intro env answer
  simp [handlePromptResponse, stateRoleType]

/-- C4: in the idle state (`CurrentStep` empty) only a leading-`/`
message is parsed as a command — a bare `help` or `create-project` is
not, and there are no natural-language heuristics: any non-command
message falls through to `handleDefaultMessage`, which returns an
`unknown step: ` error rather than a help nudge (the state itself is
left unchanged). -/
theorem idle_nonslash_input_errors :
    (ParseCommand "help" = .ok none)
  ∧ (ParseCommand "create-project my-svc" = .ok none)
  ∧ ((HandleMessage envOk [] "cli" "hello" 0).1 = .error (.plain "unknown step: "))
  ∧ ((HandleMessage envOk [] "cli" "I want to create a project" 0).1
      = .error (.plain "unknown step: "))
  ∧ (lookupState (HandleMessage envOk [] "cli" "hello" 0).2 "cli"
      = some (newConversationState 0)) := by
  refine ⟨by decide, by decide, by decide, by decide, by decide⟩

/-- C9 witness: the cancellation law applied at the concrete
role-assignment confirmation, under a collaborator whose `AssignRoles`
always fails — the cancellation neither calls nor notices it. -/
theorem confirmation_no_resets_and_cancels_witness :
    handlePromptResponse envAssignFails stateConfirmRole "no"
      = (.ok "Role assignment cancelled.", stateConfirmRole.Reset) := by
  have h := confirmation_no_resets_and_cancels envAssignFails stateConfirmRole
    (NewConfirmation "Assign role 'member' to user 'user@example.com' in project 'svc'?" true)
    "no" rfl (by decide)
  exact h.2.1 rfl

end Nobl9
